import Mathlib

/-!
Shallow embedding of the BLE lease manager of `amb82_ble_service.py`
(class `AMB82Service`), together with theorems about its lease protocol.

Modelling conventions:
* Timestamps (`time.time()` values) are integers; each operation receives
  the current time `now` explicitly.
* The transport (bleak client) is abstracted: a read operation receives the
  outcome of `read_gatt_char` (already UTF-8 decoded and stripped) as an
  `Except TErr String`; a write operation receives the transport as a
  function `String → Except TErr Unit` applied to the exact payload string
  the method writes, so that the payload reaching the wire is visible in
  the model.
* `connected` stands for "client is connected and the needed characteristic
  handles were discovered"; every method guards on this and returns its
  failure value without touching state when it is false.
* Python's `None`-or-string fields are `Option String`; Python truthiness
  of such a field (`if self.active_token:`) is `pyTruthy`.
* The method `_is_token_valid` compares `time.time() - self.last_hold_time >
  TOKEN_EXPIRY_DURATION and TOKEN_EXPIRATION != 0`.  The name
  `TOKEN_EXPIRATION` is not defined anywhere in the module (the defined
  constant is `TOKEN_EXPIRY_DURATION`), so whenever the first conjunct is
  true Python raises an uncaught `NameError` before the token-clearing
  assignments on the following lines can run.  The model returns `Res.exc`
  for this uncaught-exception outcome; the clearing assignments are dead
  code and therefore do not appear in the model.
-/

namespace BullsiView

/-- A transport-level failure (`BleakError` or any other exception raised
inside a `try` block of the Python methods, all of which are caught). -/
inductive TErr where
  | bleak
  | other
deriving DecidableEq

/-- Outcome of running one Python method: `ok v` when the method returns
the value `v`, `exc` when it aborts with an uncaught exception. -/
inductive Res (α : Type) where
  | ok : α → Res α
  | exc : Res α
deriving DecidableEq

/-- Constant `TOKEN_EXPIRY_DURATION = 3` (seconds). -/
def TOKEN_EXPIRY_DURATION : Int := 3

/-- Constant `TOKEN_LENGTH = 8`. -/
def TOKEN_LENGTH : Nat := 8

/-- The mutable state of an `AMB82Service` instance (the fields assigned in
`reset_state`, plus the connection flag standing for `self.client` being a
connected client with discovered characteristics). -/
structure AMBState where
  connected : Bool
  active_token : Option String
  last_hold_time : Int
  claim_enabled : Bool
  current_ssid : String
  status : String
deriving DecidableEq

/-- Python truthiness of an optional string: `None` and `""` are falsy. -/
def pyTruthy : Option String → Bool
  | none => false
  | some x => !(x == "")

/-- Python's `str.strip()`: removes leading and trailing whitespace. -/
def pyStrip (s : String) : String :=
  String.mk
    (((s.data.dropWhile Char.isWhitespace).reverse.dropWhile
        Char.isWhitespace).reverse)

/-- Method `reset_state`: clears the lease and peripheral-state fields. -/
def reset_state (s : AMBState) : AMBState :=
  { s with
    active_token := none
    last_hold_time := 0
    claim_enabled := true
    current_ssid := "N/A"
    status := "Idle" }

/-- The state right after `__init__` (which calls `reset_state`; no client
is connected yet). -/
def initState : AMBState :=
  reset_state
    { connected := false
      active_token := none
      last_hold_time := 0
      claim_enabled := true
      current_ssid := "N/A"
      status := "Idle" }

/-- Method `_is_token_valid(token)`.  Returns `ok false` when the token is falsy
or differs from the stored one; in the expired case the guard evaluates the
undefined name `TOKEN_EXPIRATION` and raises `NameError` (`exc`) before the
clearing assignments run, so the state is never mutated by this method. -/
def is_token_valid (now : Int) (s : AMBState) (token : String) : Res Bool :=
  if token = "" ∨ some token ≠ s.active_token then .ok false
  else if now - s.last_hold_time > TOKEN_EXPIRY_DURATION then .exc
  else .ok true

/-- Method `claim()`.  Here `tr` is the outcome of reading the claim characteristic,
decoded and stripped.  Returns the newly stored token on success, `none`
on any denial or caught error. -/
def claim (now : Int) (tr : Except TErr String) (s : AMBState) :
    Res (Option String) × AMBState :=
  if !s.connected then (.ok none, s)
  else if !s.claim_enabled then (.ok none, s)
  else
    -- `if self.active_token and not self._is_token_valid(self.active_token):`
    -- the branch body only logs, but the validity call itself can raise,
    -- and it sits outside the `try` block.
    match (if pyTruthy s.active_token then
             is_token_valid now s (s.active_token.getD "")
           else .ok false) with
    | .exc => (.exc, s)
    | .ok _ =>
      match tr with
      | .error _ => (.ok none, s)
      | .ok token =>
        if token ≠ "" ∧ token.length = TOKEN_LENGTH then
          (.ok (some token),
           { s with
             active_token := some token
             last_hold_time := now
             claim_enabled := false })
        else (.ok none, s)

/-- Method `hold(token)`.  Here `write` is the transport's response to
`write_gatt_char` as a function of the written payload (here the token
itself). -/
def hold (now : Int) (write : String → Except TErr Unit) (token : String)
    (s : AMBState) : Res Bool × AMBState :=
  if !s.connected then (.ok false, s)
  else
    match is_token_valid now s token with
    | .exc => (.exc, s)
    | .ok false => (.ok false, s)
    | .ok true =>
      match write token with
      | .ok _ => (.ok true, { s with last_hold_time := now })
      | .error _ => (.ok false, s)

/-- The payload string built by `ssid(token, new_ssid, password)`:
starts as the token; the ssid is appended (comma-delimited) when truthy,
and the password is appended only inside that branch, when itself truthy. -/
def ssidPayload (token : String) (new_ssid password : Option String) :
    String :=
  let payload := token
  if pyTruthy new_ssid then
    let payload := payload ++ "," ++ new_ssid.getD ""
    if pyTruthy password then payload ++ "," ++ password.getD ""
    else payload
  else payload

/-- Method `ssid(token, new_ssid, password)` (the `configureNetwork` operation).
Writes `ssidPayload` to the SSID-control characteristic; a successful
write also acts as a hold (renews `last_hold_time`). -/
def ssid (now : Int) (write : String → Except TErr Unit) (token : String)
    (new_ssid password : Option String) (s : AMBState) :
    Res Bool × AMBState :=
  if !s.connected then (.ok false, s)
  else
    match is_token_valid now s token with
    | .exc => (.exc, s)
    | .ok false => (.ok false, s)
    | .ok true =>
      match write (ssidPayload token new_ssid password) with
      | .ok _ => (.ok true, { s with last_hold_time := now })
      | .error _ => (.ok false, s)

/-- Method `wipe(token)`.  Writes the token to the wipe characteristic; on
success it only renews `last_hold_time` (the `reset_state()` call in the
source is commented out: "Assume wipe command also acts as a hold"). -/
def wipe (now : Int) (write : String → Except TErr Unit) (token : String)
    (s : AMBState) : Res Bool × AMBState :=
  if !s.connected then (.ok false, s)
  else
    match is_token_valid now s token with
    | .exc => (.exc, s)
    | .ok false => (.ok false, s)
    | .ok true =>
      match write token with
      | .ok _ => (.ok true, { s with last_hold_time := now })
      | .error _ => (.ok false, s)

/-- Method `read_status()`.  Here `r` is the outcome of the characteristic read,
decoded; on success the stripped text is stored and returned, otherwise
the sentinel `"Error"` is returned and the state is untouched. -/
def read_status (r : Except TErr String) (s : AMBState) :
    String × AMBState :=
  if !s.connected then ("Error", s)
  else
    match r with
    | .ok b => (pyStrip b, { s with status := pyStrip b })
    | .error _ => ("Error", s)

/-- Method `read_current_ssid()`, analogous to `read_status`. -/
def read_current_ssid (r : Except TErr String) (s : AMBState) :
    String × AMBState :=
  if !s.connected then ("Error", s)
  else
    match r with
    | .ok b => (pyStrip b, { s with current_ssid := pyStrip b })
    | .error _ => ("Error", s)

/-- Whether `needle` occurs as a contiguous sublist of `hay`
(Python's `needle in hay` on the character lists). -/
def listContains (needle : List Char) : List Char → Bool
  | [] => needle.isEmpty
  | c :: t => List.isPrefixOf needle (c :: t) || listContains needle t

/-- Python's substring test `needle in hay` (case-sensitive). -/
def strContains (hay needle : String) : Bool :=
  listContains needle.data hay.data

/-- Method `_default_status_handler(sender, data)`: stores the decoded stripped
status text; if it contains `"Expired"` or `"Reset"` the lease is cleared
and claiming re-enabled. -/
def default_status_handler (data : String) (s : AMBState) : AMBState :=
  let s1 := { s with status := pyStrip data }
  if strContains s1.status "Expired" || strContains s1.status "Reset" then
    { s1 with active_token := none, claim_enabled := true }
  else s1

/-- Method `_default_ssid_handler(sender, data)`. -/
def default_ssid_handler (data : String) (s : AMBState) : AMBState :=
  { s with current_ssid := pyStrip data }

/-- The view returned by `get_state()`. -/
structure LeaseView where
  active_token : Option String
  claim_enabled : Bool
  current_ssid : String
  last_hold_time : Int
  token_expired : Bool
  status : String
  is_connected : Bool
deriving DecidableEq

/-- Method `get_state()` (the `snapshot` operation).  The method body contains no
assignment to `self`, so the paired post-state is the input state; the
view reports the token as absent and claiming as enabled when the stored
token's age exceeds the expiry duration. -/
def get_state (now : Int) (s : AMBState) : LeaseView × AMBState :=
  let token_expired :=
    pyTruthy s.active_token &&
      decide (now - s.last_hold_time > TOKEN_EXPIRY_DURATION)
  ({ active_token := if token_expired then none else s.active_token
     claim_enabled := s.claim_enabled || token_expired
     current_ssid := s.current_ssid
     last_hold_time := s.last_hold_time
     token_expired := token_expired
     status := s.status
     is_connected := s.connected }, s)

/-- Method `reset()` — the public wrapper around `reset_state`. -/
def reset (s : AMBState) : AMBState :=
  reset_state s

/-- One externally triggered event on the service, with the environment's
inputs (current time, transport responses, notification payloads) baked
in. -/
inductive Ev where
  | claimEv (now : Int) (tr : Except TErr String)
  | holdEv (now : Int) (write : String → Except TErr Unit) (token : String)
  | ssidEv (now : Int) (write : String → Except TErr Unit) (token : String)
      (new_ssid password : Option String)
  | wipeEv (now : Int) (write : String → Except TErr Unit) (token : String)
  | readStatusEv (r : Except TErr String)
  | readSsidEv (r : Except TErr String)
  | statusNotifyEv (data : String)
  | ssidNotifyEv (data : String)
  | resetEv
  | connectEv
  | disconnectEv

/-- The state after an event (for methods that can raise, the state at the
moment the exception propagates, which equals the pre-state since no
mutation precedes the raise). -/
def applyEv : Ev → AMBState → AMBState
  | .claimEv now tr, s => (claim now tr s).2
  | .holdEv now w token, s => (hold now w token s).2
  | .ssidEv now w token ns pw, s => (ssid now w token ns pw s).2
  | .wipeEv now w token, s => (wipe now w token s).2
  | .readStatusEv r, s => (read_status r s).2
  | .readSsidEv r, s => (read_current_ssid r s).2
  | .statusNotifyEv data, s => default_status_handler data s
  | .ssidNotifyEv data, s => default_ssid_handler data s
  | .resetEv, s => reset s
  | .connectEv, s => { s with connected := true }
  | .disconnectEv, s => reset_state { s with connected := false }

/-- States reachable from a freshly constructed service by any sequence of
events. -/
inductive Reachable : AMBState → Prop
  | init : Reachable initState
  | step {s : AMBState} (e : Ev) : Reachable s → Reachable (applyEv e s)

/-- Predicate: `t` is a non-expired lease token of `s` at time `now` (the validity
rule of the data model, ignoring which token the caller presents). -/
def nonExpiredLease (now : Int) (s : AMBState) (t : String) : Prop :=
  s.active_token = some t ∧ now - s.last_hold_time ≤ TOKEN_EXPIRY_DURATION

instance (now : Int) (s : AMBState) (t : String) :
    Decidable (nonExpiredLease now s t) :=
  decidable_of_iff
    (s.active_token = some t ∧ now - s.last_hold_time ≤ TOKEN_EXPIRY_DURATION)
    Iff.rfl

/-- The lease invariant: whenever a token is stored, claiming is
disabled. -/
def tokenInv (s : AMBState) : Prop :=
  ∀ t, s.active_token = some t → s.claim_enabled = false

theorem tokenInv_claim (now : Int) (tr : Except TErr String) (s : AMBState)
    (h : tokenInv s) : tokenInv (claim now tr s).2 := by
  unfold claim
  repeat' split
  all_goals first
    | exact h
    | (intro t ht; rfl)

theorem tokenInv_hold (now : Int) (w : String → Except TErr Unit)
    (token : String) (s : AMBState) (h : tokenInv s) :
    tokenInv (hold now w token s).2 := by
  unfold hold
  repeat' split
  all_goals exact h

theorem tokenInv_ssid (now : Int) (w : String → Except TErr Unit)
    (token : String) (new_ssid password : Option String) (s : AMBState)
    (h : tokenInv s) : tokenInv (ssid now w token new_ssid password s).2 := by
  unfold ssid
  repeat' split
  all_goals exact h

theorem tokenInv_wipe (now : Int) (w : String → Except TErr Unit)
    (token : String) (s : AMBState) (h : tokenInv s) :
    tokenInv (wipe now w token s).2 := by
  unfold wipe
  repeat' split
  all_goals exact h

theorem tokenInv_read_status (r : Except TErr String) (s : AMBState)
    (h : tokenInv s) : tokenInv (read_status r s).2 := by
  unfold read_status
  repeat' split
  all_goals intro t ht
  all_goals exact h t ht

theorem tokenInv_read_current_ssid (r : Except TErr String) (s : AMBState)
    (h : tokenInv s) : tokenInv (read_current_ssid r s).2 := by
  unfold read_current_ssid
  repeat' split
  all_goals intro t ht
  all_goals exact h t ht

theorem tokenInv_status_handler (data : String) (s : AMBState)
    (h : tokenInv s) : tokenInv (default_status_handler data s) := by
  intro t ht
  by_cases hc :
      (strContains (pyStrip data) "Expired" ||
        strContains (pyStrip data) "Reset") = true
  · simp [default_status_handler, hc] at ht
  · simp [default_status_handler, hc] at ht ⊢
    exact h t ht

theorem tokenInv_reset_state (s : AMBState) :
    tokenInv (reset_state s) := by
  intro t ht
  simp [reset_state] at ht

theorem tokenInv_applyEv (e : Ev) (s : AMBState) (h : tokenInv s) :
    tokenInv (applyEv e s) := by
  cases e with
  | claimEv now tr => exact tokenInv_claim now tr s h
  | holdEv now w token => exact tokenInv_hold now w token s h
  | ssidEv now w token ns pw => exact tokenInv_ssid now w token ns pw s h
  | wipeEv now w token => exact tokenInv_wipe now w token s h
  | readStatusEv r => exact tokenInv_read_status r s h
  | readSsidEv r => exact tokenInv_read_current_ssid r s h
  | statusNotifyEv data => exact tokenInv_status_handler data s h
  | ssidNotifyEv data => exact fun t ht => h t ht
  | resetEv => exact tokenInv_reset_state s
  | connectEv => exact fun t ht => h t ht
  | disconnectEv => exact tokenInv_reset_state _

theorem tokenInv_reachable (s : AMBState) (h : Reachable s) : tokenInv s := by
  induction h with
  | init => exact tokenInv_reset_state _
  | step e _ ih => exact tokenInv_applyEv e _ ih

/-- C1: in every state reachable by any sequence of claim / hold /
configureNetwork / wipe / notification / reset events, at most one
non-expired lease token exists, and `claim_enabled` is `false` whenever a
non-expired token exists. -/
theorem lease_mutual_exclusion (s : AMBState) (h : Reachable s) (now : Int) :
    (∀ t₁ t₂, nonExpiredLease now s t₁ → nonExpiredLease now s t₂ → t₁ = t₂) ∧
    ((∃ t, nonExpiredLease now s t) → s.claim_enabled = false) := by
  constructor
  · intro t₁ t₂ h₁ h₂
    have e₁ := h₁.1
    have e₂ := h₂.1
    rw [e₁] at e₂
    exact (Option.some.injEq t₁ t₂ ▸ e₂).symm ▸ rfl
  · intro ⟨t, ht⟩
    exact tokenInv_reachable s h t ht.1

/-- Witness for C1: after connecting and a successful claim at time 5, a
non-expired token exists at time 6 and the theorem yields
`claim_enabled = false`. -/
theorem lease_mutual_exclusion_witness :
    (∃ t, nonExpiredLease 6
      (applyEv (.claimEv 5 (Except.ok "AbC123Xy"))
        (applyEv .connectEv initState)) t) ∧
    (applyEv (.claimEv 5 (Except.ok "AbC123Xy"))
        (applyEv .connectEv initState)).claim_enabled = false := by
  refine ⟨⟨"AbC123Xy", by decide⟩, ?_⟩
  exact (lease_mutual_exclusion _
    (Reachable.step _ (Reachable.step _ Reachable.init)) 6).2
    ⟨"AbC123Xy", by decide⟩

theorem is_token_valid_of_matching (now : Int) (s : AMBState)
    (token : String) (ht : token ≠ "") (ha : s.active_token = some token)
    (hv : now - s.last_hold_time ≤ TOKEN_EXPIRY_DURATION) :
    is_token_valid now s token = Res.ok true := by
  unfold is_token_valid
  rw [if_neg, if_neg]
  · exact not_lt.mpr hv
  · push_neg
    exact ⟨ht, ha.symm⟩

/-- C2 counterexample: with a valid token (`"AbC123Xy"`, age 1 ≤ 3) and a
successful transport write, `wipe` returns ok but leaves the token stored
and `claim_enabled` false (it merely renews `last_hold_time`), and the
immediately following `claim` is denied (returns `none`) instead of
succeeding. -/
theorem wipe_clears_lease_counterexample :
    wipe 5 (fun _ => Except.ok ()) "AbC123Xy"
      { connected := true, active_token := some "AbC123Xy",
        last_hold_time := 4, claim_enabled := false,
        current_ssid := "N/A", status := "Idle" } =
      (Res.ok true,
       { connected := true, active_token := some "AbC123Xy",
         last_hold_time := 5, claim_enabled := false,
         current_ssid := "N/A", status := "Idle" }) ∧
    claim 5 (Except.ok "QrS456Zw")
      { connected := true, active_token := some "AbC123Xy",
        last_hold_time := 5, claim_enabled := false,
        current_ssid := "N/A", status := "Idle" } =
      (Res.ok none,
       { connected := true, active_token := some "AbC123Xy",
         last_hold_time := 5, claim_enabled := false,
         current_ssid := "N/A", status := "Idle" }) := by
  exact ⟨by decide, by decide⟩

/-- C2 (amended): for every valid token, `wipe(token)` on transport-write
success returns ok but does not clear the lease: it acts as a renewal
(`last_hold_time := now`), the active token and `claim_enabled` are
unchanged, and an immediate subsequent `claim()` is denied (returns
`none`). -/
theorem wipe_renews_instead_of_clearing (now : Int)
    (w : String → Except TErr Unit) (token : String) (s : AMBState)
    (hc : s.connected = true) (ht : token ≠ "")
    (ha : s.active_token = some token)
    (hv : now - s.last_hold_time ≤ TOKEN_EXPIRY_DURATION)
    (hw : w token = Except.ok ()) :
    wipe now w token s = (Res.ok true, { s with last_hold_time := now }) ∧
    ({ s with last_hold_time := now }).active_token = s.active_token ∧
    ({ s with last_hold_time := now }).claim_enabled = s.claim_enabled ∧
    (s.claim_enabled = false → ∀ tr,
      claim now tr { s with last_hold_time := now } =
        (Res.ok none, { s with last_hold_time := now })) := by
  have hvalid := is_token_valid_of_matching now s token ht ha hv
  refine ⟨by simp [wipe, hc, hvalid, hw], rfl, rfl, ?_⟩
  intro hce tr
  simp [claim, hc, hce]

/-- C2 witness: a concrete valid-token wipe that returns ok and yields the
renewed (not cleared) state. -/
theorem wipe_renews_instead_of_clearing_witness :
    wipe 6 (fun _ => Except.ok ()) "Zz9Yy8Xw"
      { connected := true, active_token := some "Zz9Yy8Xw",
        last_hold_time := 4, claim_enabled := false,
        current_ssid := "N/A", status := "Idle" } =
      (Res.ok true,
       { connected := true, active_token := some "Zz9Yy8Xw",
         last_hold_time := 6, claim_enabled := false,
         current_ssid := "N/A", status := "Idle" }) :=
  (wipe_renews_instead_of_clearing 6 (fun _ => Except.ok ()) "Zz9Yy8Xw"
    { connected := true, active_token := some "Zz9Yy8Xw",
      last_hold_time := 4, claim_enabled := false,
      current_ssid := "N/A", status := "Idle" }
    rfl (by decide) rfl (by decide) rfl).1

/-- C3: evaluating `hold` with a token that equals the stored one but whose
age exceeds the expiry duration (age 10 > 3): the validity check evaluates
the undefined name `TOKEN_EXPIRATION` and the call aborts with an uncaught
`NameError` (`Res.exc`), leaving the lease uncleared — instead of returning
`Rejected` and clearing the lease as the claim states. -/
theorem hold_expired_token_uncaught_error :
    hold 10 (fun _ => Except.ok ()) "AbC123Xy"
      { connected := true, active_token := some "AbC123Xy",
        last_hold_time := 0, claim_enabled := false,
        current_ssid := "N/A", status := "Idle" } =
      (Res.exc,
       { connected := true, active_token := some "AbC123Xy",
         last_hold_time := 0, claim_enabled := false,
         current_ssid := "N/A", status := "Idle" }) := by
  decide

/-- C4: a public operation that aborts with an uncaught error instead of
returning a discriminated result: `ssid` (configureNetwork) with a stored
but expired token (age 94 > 3) propagates the `NameError` raised inside
`_is_token_valid`, whose call sits outside the method's `try` block. -/
theorem configure_network_uncaught_error :
    ssid 99 (fun _ => Except.ok ()) "Qw3rTy12" (some "net1") (some "pass1")
      { connected := true, active_token := some "Qw3rTy12",
        last_hold_time := 5, claim_enabled := false,
        current_ssid := "N/A", status := "Idle" } =
      (Res.exc,
       { connected := true, active_token := some "Qw3rTy12",
         last_hold_time := 5, claim_enabled := false,
         current_ssid := "N/A", status := "Idle" }) := by
  decide

/-- C5 counterexample: with `claim_enabled = false` and a stored token
whose age (10) exceeds the expiry duration (3), `claim` is denied
immediately (returns `none` without touching state) instead of issuing the
transport read and storing the offered well-formed token `"NewTok12"`. -/
theorem claim_denied_despite_expiry_counterexample :
    ((10 : Int) - 0 > TOKEN_EXPIRY_DURATION) ∧
    claim 10 (Except.ok "NewTok12")
      { connected := true, active_token := some "OldTok34",
        last_hold_time := 0, claim_enabled := false,
        current_ssid := "N/A", status := "Idle" } =
      (Res.ok none,
       { connected := true, active_token := some "OldTok34",
         last_hold_time := 0, claim_enabled := false,
         current_ssid := "N/A", status := "Idle" }) := by
  exact ⟨by decide, by decide⟩

/-- C5 (amended): `claim()` fails with `Denied` (returns `none`, state
untouched) whenever `claim_enabled` is false — regardless of whether the
stored token is still valid; whenever `claim_enabled` is true (and no
token is stored), it issues the transport read and, on a well-formed
8-character payload, stores the new token, sets `last_hold_time` to now,
sets `claim_enabled` to false, and returns the token. -/
theorem claim_denial_and_success (now : Int) (tr : Except TErr String)
    (s : AMBState) (hc : s.connected = true) :
    (s.claim_enabled = false → claim now tr s = (Res.ok none, s)) ∧
    (s.claim_enabled = true → s.active_token = none →
      ∀ tok, tr = Except.ok tok → tok ≠ "" → tok.length = TOKEN_LENGTH →
        claim now tr s =
          (Res.ok (some tok),
           { s with
             active_token := some tok
             last_hold_time := now
             claim_enabled := false })) := by
  constructor
  · intro hce
    simp [claim, hc, hce]
  · intro hce ha tok htr hne hlen
    subst htr
    simp [claim, hc, hce, ha, pyTruthy, hne, hlen]

/-- C5 witness: a fresh connected state accepts the claim and stores the
8-character token offered by the transport. -/
theorem claim_denial_and_success_witness :
    claim 7 (Except.ok "AbCdEfGh")
      { connected := true, active_token := none, last_hold_time := 0,
        claim_enabled := true, current_ssid := "N/A", status := "Idle" } =
      (Res.ok (some "AbCdEfGh"),
       { connected := true, active_token := some "AbCdEfGh",
         last_hold_time := 7, claim_enabled := false,
         current_ssid := "N/A", status := "Idle" }) :=
  (claim_denial_and_success 7 (Except.ok "AbCdEfGh")
    { connected := true, active_token := none, last_hold_time := 0,
      claim_enabled := true, current_ssid := "N/A", status := "Idle" }
    rfl).2 rfl rfl "AbCdEfGh" rfl (by decide) (by decide)

/-- C6: for a valid token (matching and non-expired), if the transport
write fails, `hold` returns `false` with the state — in particular
`last_hold_time` — untouched; and `last_hold_time` changes only when the
write confirmed success, in which case it is set to now. -/
theorem hold_no_silent_renewal (now : Int) (w : String → Except TErr Unit)
    (token : String) (s : AMBState) (hc : s.connected = true)
    (ht : token ≠ "") (ha : s.active_token = some token)
    (hv : now - s.last_hold_time ≤ TOKEN_EXPIRY_DURATION) :
    (∀ e, w token = Except.error e → hold now w token s = (Res.ok false, s)) ∧
    ((hold now w token s).2.last_hold_time ≠ s.last_hold_time →
      w token = Except.ok () ∧
      hold now w token s = (Res.ok true, { s with last_hold_time := now })) := by
  have hvalid := is_token_valid_of_matching now s token ht ha hv
  constructor
  · intro e he
    simp [hold, hc, hvalid, he]
  · intro hch
    cases hwt : w token with
    | ok u =>
      cases u
      exact ⟨rfl, by simp [hold, hc, hvalid, hwt]⟩
    | error e =>
      exfalso
      apply hch
      simp [hold, hc, hvalid, hwt]

/-- C6 witness: a failed transport write on a valid hold returns `false`
and leaves the state unchanged. -/
theorem hold_no_silent_renewal_witness :
    hold 2 (fun _ => Except.error TErr.bleak) "Kk1Ll2Mm"
      { connected := true, active_token := some "Kk1Ll2Mm",
        last_hold_time := 0, claim_enabled := false,
        current_ssid := "N/A", status := "Idle" } =
      (Res.ok false,
       { connected := true, active_token := some "Kk1Ll2Mm",
         last_hold_time := 0, claim_enabled := false,
         current_ssid := "N/A", status := "Idle" }) :=
  (hold_no_silent_renewal 2 (fun _ => Except.error TErr.bleak) "Kk1Ll2Mm"
    { connected := true, active_token := some "Kk1Ll2Mm",
      last_hold_time := 0, claim_enabled := false,
      current_ssid := "N/A", status := "Idle" }
    rfl (by decide) rfl (by decide)).1 TErr.bleak rfl

/-- C7: with a valid token, `ssid` (configureNetwork) writes exactly the
comma-delimited payload `token[,ssid[,password]]` to the transport: the
token always first, the ssid appended when given (non-empty), the password
appended only when the ssid was appended; in particular the payload for
`("net1", "pass1")` is `token ++ ",net1,pass1"` and with no password
`token ++ ",net1"`. -/
theorem configure_network_payload (now : Int)
    (w : String → Except TErr Unit) (token : String)
    (new_ssid password : Option String) (s : AMBState)
    (hc : s.connected = true) (ht : token ≠ "")
    (ha : s.active_token = some token)
    (hv : now - s.last_hold_time ≤ TOKEN_EXPIRY_DURATION) :
    (ssid now w token new_ssid password s =
      match w (ssidPayload token new_ssid password) with
      | Except.ok _ => (Res.ok true, { s with last_hold_time := now })
      | Except.error _ => (Res.ok false, s)) ∧
    ssidPayload token (some "net1") (some "pass1") =
      token ++ ",net1,pass1" ∧
    ssidPayload token (some "net1") none = token ++ ",net1" ∧
    ssidPayload token none password = token ∧
    (∀ ss p, ss ≠ "" → p ≠ "" →
      ssidPayload token (some ss) (some p) =
        token ++ "," ++ ss ++ "," ++ p) ∧
    (∀ ss, ss ≠ "" → ssidPayload token (some ss) none = token ++ "," ++ ss) := by
  have hvalid := is_token_valid_of_matching now s token ht ha hv
  refine ⟨by simp [ssid, hc, hvalid], ?_, ?_, rfl, ?_, ?_⟩
  · have e : ssidPayload token (some "net1") (some "pass1") =
        token ++ "," ++ "net1" ++ "," ++ "pass1" := rfl
    rw [e, String.append_assoc, String.append_assoc, String.append_assoc]
    rfl
  · have e : ssidPayload token (some "net1") none =
        token ++ "," ++ "net1" := rfl
    rw [e, String.append_assoc]
    rfl
  · intro ss p hss hp
    simp [ssidPayload, pyTruthy, hss, hp]
  · intro ss hss
    simp [ssidPayload, pyTruthy, hss]

/-- C7 witness: concrete serialization of the two round-trip examples with
a valid token. -/
theorem configure_network_payload_witness :
    ssidPayload "AbC123Xy" (some "net1") (some "pass1") =
      "AbC123Xy" ++ ",net1,pass1" ∧
    ssidPayload "AbC123Xy" (some "net1") none = "AbC123Xy" ++ ",net1" :=
  ⟨(configure_network_payload 1 (fun _ => Except.ok ()) "AbC123Xy"
      (some "net1") (some "pass1")
      { connected := true, active_token := some "AbC123Xy",
        last_hold_time := 0, claim_enabled := false,
        current_ssid := "N/A", status := "Idle" }
      rfl (by decide) rfl (by decide)).2.1,
   (configure_network_payload 1 (fun _ => Except.ok ()) "AbC123Xy"
      (some "net1") (some "pass1")
      { connected := true, active_token := some "AbC123Xy",
        last_hold_time := 0, claim_enabled := false,
        current_ssid := "N/A", status := "Idle" }
      rfl (by decide) rfl (by decide)).2.2.1⟩

/-- C8: `get_state` (snapshot) never mutates the stored state — the
post-state equals the input state for every input — and when the stored
token's age exceeds the expiry duration the returned view reports no
token and claiming enabled, even though the stored fields keep their old
values. -/
theorem snapshot_non_mutating (now : Int) (s : AMBState) :
    (get_state now s).2 = s ∧
    (∀ t, s.active_token = some t → t ≠ "" →
      now - s.last_hold_time > TOKEN_EXPIRY_DURATION →
      (get_state now s).1.active_token = none ∧
      (get_state now s).1.claim_enabled = true ∧
      (get_state now s).2.active_token = some t ∧
      (get_state now s).2.claim_enabled = s.claim_enabled ∧
      (get_state now s).2.last_hold_time = s.last_hold_time) := by
  refine ⟨rfl, ?_⟩
  intro t ha htne hexp
  have hte : (pyTruthy s.active_token &&
      decide (now - s.last_hold_time > TOKEN_EXPIRY_DURATION)) = true := by
    rw [ha]
    simp [pyTruthy, htne, hexp]
  refine ⟨?_, ?_, ha, rfl, rfl⟩ <;> simp [get_state, hte]

/-- C8 witness: a state with an expired stored token (age 8 > 3) is
reported as token-free with claiming enabled, while the stored state is
returned unchanged. -/
theorem snapshot_non_mutating_witness :
    (get_state 9
      { connected := true, active_token := some "Tt5Uu6Vv",
        last_hold_time := 1, claim_enabled := false,
        current_ssid := "N/A", status := "Idle" }).2 =
      { connected := true, active_token := some "Tt5Uu6Vv",
        last_hold_time := 1, claim_enabled := false,
        current_ssid := "N/A", status := "Idle" } ∧
    (get_state 9
      { connected := true, active_token := some "Tt5Uu6Vv",
        last_hold_time := 1, claim_enabled := false,
        current_ssid := "N/A", status := "Idle" }).1.active_token = none ∧
    (get_state 9
      { connected := true, active_token := some "Tt5Uu6Vv",
        last_hold_time := 1, claim_enabled := false,
        current_ssid := "N/A", status := "Idle" }).1.claim_enabled = true :=
  ⟨(snapshot_non_mutating 9
      { connected := true, active_token := some "Tt5Uu6Vv",
        last_hold_time := 1, claim_enabled := false,
        current_ssid := "N/A", status := "Idle" }).1,
   ((snapshot_non_mutating 9
      { connected := true, active_token := some "Tt5Uu6Vv",
        last_hold_time := 1, claim_enabled := false,
        current_ssid := "N/A", status := "Idle" }).2 "Tt5Uu6Vv" rfl
      (by decide) (by decide)).1,
   ((snapshot_non_mutating 9
      { connected := true, active_token := some "Tt5Uu6Vv",
        last_hold_time := 1, claim_enabled := false,
        current_ssid := "N/A", status := "Idle" }).2 "Tt5Uu6Vv" rfl
      (by decide) (by decide)).2.1⟩

/-- C9: handling a status notification overwrites the stored status with
the decoded stripped text, and when that text contains an expiry/reset
marker the clearing transition is performed: active token becomes `none`
and `claim_enabled` becomes `true`. -/
theorem status_notification_reconciles (data : String) (s : AMBState) :
    (default_status_handler data s).status = pyStrip data ∧
    ((strContains (pyStrip data) "Expired" ||
        strContains (pyStrip data) "Reset") = true →
      (default_status_handler data s).active_token = none ∧
      (default_status_handler data s).claim_enabled = true) := by
  constructor
  · by_cases hm : (strContains (pyStrip data) "Expired" ||
        strContains (pyStrip data) "Reset") = true <;>
      simp [default_status_handler, hm]
  · intro hm
    constructor <;> simp [default_status_handler, hm]

/-- C9 witness: the notification text `"Lease Expired"` is stored as the
status and clears the lease of a held state. -/
theorem status_notification_reconciles_witness :
    (default_status_handler "Lease Expired"
      { connected := true, active_token := some "Gg3Hh4Jj",
        last_hold_time := 2, claim_enabled := false,
        current_ssid := "N/A", status := "Idle" }).status =
      pyStrip "Lease Expired" ∧
    (default_status_handler "Lease Expired"
      { connected := true, active_token := some "Gg3Hh4Jj",
        last_hold_time := 2, claim_enabled := false,
        current_ssid := "N/A", status := "Idle" }).active_token = none :=
  ⟨(status_notification_reconciles "Lease Expired"
      { connected := true, active_token := some "Gg3Hh4Jj",
        last_hold_time := 2, claim_enabled := false,
        current_ssid := "N/A", status := "Idle" }).1,
   ((status_notification_reconciles "Lease Expired"
      { connected := true, active_token := some "Gg3Hh4Jj",
        last_hold_time := 2, claim_enabled := false,
        current_ssid := "N/A", status := "Idle" }).2 (by decide)).1⟩

/-- C10: the expiry/reset marker test is case-sensitive substring
containment on the stripped text: whenever the stripped status text
contains `"Expired"` or `"Reset"` anywhere as a substring the lease is
cleared (token `none`, claiming enabled); whenever it contains neither,
the active token, the claim flag and the renewal time are all left
unchanged (only the status text is overwritten). -/
theorem status_marker_is_substring_containment (data : String)
    (s : AMBState) :
    ((strContains (pyStrip data) "Expired" ||
        strContains (pyStrip data) "Reset") = true →
      (default_status_handler data s).active_token = none ∧
      (default_status_handler data s).claim_enabled = true) ∧
    ((strContains (pyStrip data) "Expired" ||
        strContains (pyStrip data) "Reset") = false →
      (default_status_handler data s).active_token = s.active_token ∧
      (default_status_handler data s).claim_enabled = s.claim_enabled ∧
      (default_status_handler data s).last_hold_time = s.last_hold_time) := by
  constructor
  · intro hm
    constructor <;> simp [default_status_handler, hm]
  · intro hm
    refine ⟨?_, ?_, ?_⟩ <;> simp [default_status_handler, hm]

/-- C10 witness: `"ResetComplete"` (marker as inner substring) clears the
lease, while the lowercase `"expired"` clears nothing: the held token
survives. -/
theorem status_marker_is_substring_containment_witness :
    (default_status_handler "ResetComplete"
      { connected := true, active_token := some "Mm9Nn0Pp",
        last_hold_time := 2, claim_enabled := false,
        current_ssid := "N/A", status := "Idle" }).active_token = none ∧
    (default_status_handler "expired"
      { connected := true, active_token := some "Mm9Nn0Pp",
        last_hold_time := 2, claim_enabled := false,
        current_ssid := "N/A", status := "Idle" }).active_token =
      some "Mm9Nn0Pp" ∧
    (default_status_handler "expired"
      { connected := true, active_token := some "Mm9Nn0Pp",
        last_hold_time := 2, claim_enabled := false,
        current_ssid := "N/A", status := "Idle" }).claim_enabled = false :=
  ⟨((status_marker_is_substring_containment "ResetComplete"
      { connected := true, active_token := some "Mm9Nn0Pp",
        last_hold_time := 2, claim_enabled := false,
        current_ssid := "N/A", status := "Idle" }).1 (by decide)).1,
   ((status_marker_is_substring_containment "expired"
      { connected := true, active_token := some "Mm9Nn0Pp",
        last_hold_time := 2, claim_enabled := false,
        current_ssid := "N/A", status := "Idle" }).2 (by decide)).1,
   ((status_marker_is_substring_containment "expired"
      { connected := true, active_token := some "Mm9Nn0Pp",
        last_hold_time := 2, claim_enabled := false,
        current_ssid := "N/A", status := "Idle" }).2 (by decide)).2.1⟩

end BullsiView
